import Mathlib

/-!
Shallow embedding of the Spotify proxy backend (Express app, `src/unnamed/part_001`).

The server is a stateless request router: an OAuth callback handler plus nine
resource proxy handlers (`/api/playlists`, `/api/search`, `/api/play`,
`/api/pause`, `/api/next`, `/api/previous`, `/api/current`, `/api/seek`,
`/api/volume`).  Each handler is translated as a pure Lean function from the
request data it reads (Authorization header, query and body fields) and the
outcome of its single outbound HTTP call, to the HTTP response it produces
together with the outbound request it issued (or `none` when no outbound call
is made).  JavaScript numbers are modelled as exact rationals (plus NaN); JSON
values as an inductive `Json` type.  The axios client's settlement rule
(resolve on 2xx, reject otherwise, reject with no response on transport
failure) is modelled explicitly by `axiosSettle`, since the handlers' try/catch
structure branches on it.
-/

namespace SpotifyProxy

/-- JSON values, as produced by `express.json()` body parsing and by upstream
responses, and as consumed by `res.json(...)`. -/
inductive Json where
  | null
  | bool (b : Bool)
  | num (q : ℚ)
  | str (s : String)
  | arr (elems : List Json)
  | obj (fields : List (String × Json))

/-- A JavaScript number: NaN, one of the two infinities, or an exact finite
value (doubles are idealised as rationals; every value the handlers actually
compute with is exactly representable on the inputs the claims exercise). -/
inductive JNum where
  | nan
  | inf
  | negInf
  | fin (q : ℚ)
deriving DecidableEq

/-- A primitive JSON body-field value as read by destructuring `req.body`.
`Option JPrim` distinguishes an absent/undefined field (`none`) from an
explicit value. -/
inductive JPrim where
  | null
  | bool (b : Bool)
  | num (q : ℚ)
  | str (s : String)
deriving DecidableEq

/-! ## JavaScript string and number semantics used by the handlers -/

/-- Replace the first occurrence of `pat` in a character list by `repl`;
unchanged when `pat` does not occur. -/
def replaceFirstAux (pat repl : List Char) : List Char → List Char
  | [] => []
  | c :: cs =>
    if pat.isPrefixOf (c :: cs) then repl ++ (c :: cs).drop pat.length
    else c :: replaceFirstAux pat repl cs

/-- `s.replace(pat, repl)` with a string pattern: replaces the FIRST occurrence
of `pat` anywhere in `s` (not only a prefix); returns `s` unchanged when `pat`
does not occur. -/
def jsReplaceFirst (s pat repl : String) : String :=
  String.mk (replaceFirstAux pat.toList repl.toList s.toList)

/-- `s.includes(sub)`: substring test. -/
def jsIncludes (s sub : String) : Bool :=
  s.toList.tails.any (fun t => sub.toList.isPrefixOf t)

/-- Truthiness of an optional string (`undefined` and the empty string are
falsy, every other string truthy), as tested by `if (error)`, `if (!code)`,
`if (!token)`, `if (!query)`, `if (uri)`. -/
def strTruthy (o : Option String) : Bool :=
  match o with
  | none => false
  | some s => !(s == "")

/-- Digits of a decimal literal, most significant first. -/
def digitsToNat (cs : List Char) : ℕ :=
  cs.foldl (fun a c => 10 * a + (c.toNat - 48)) 0

/-- Exponent part of a decimal literal (after `e`/`E`). -/
def parseExpPart (cs : List Char) : Option ℤ :=
  match cs with
  | [] => none
  | c :: ds =>
    if c = '-' then
      if ds ≠ [] ∧ ds.all Char.isDigit then some (-(digitsToNat ds : ℤ)) else none
    else if c = '+' then
      if ds ≠ [] ∧ ds.all Char.isDigit then some (digitsToNat ds : ℤ) else none
    else
      if (c :: ds).all Char.isDigit then some (digitsToNat (c :: ds) : ℤ) else none

/-- Exact value of a decimal literal whose digits (integer and fractional
parts concatenated) read as `m`, with `k` fractional digits and decimal
exponent `e`: the rational `m * 10 ^ (e - k)`. -/
def decValue (m : ℕ) (k : ℕ) (e : ℤ) : ℚ :=
  if (k : ℤ) ≤ e then mkRat (m * 10 ^ (e - k).toNat) 1
  else mkRat m (10 ^ ((k : ℤ) - e).toNat)

/-- Unsigned decimal literal: digits, optional fraction, optional exponent.
Returns `none` when the character list is not such a literal. -/
def parseUnsignedDecimal (cs : List Char) : Option ℚ :=
  let intPart := cs.takeWhile Char.isDigit
  let rest := cs.dropWhile Char.isDigit
  let finish : List Char → Option (List Char) → Option ℚ := fun frac expPart =>
    if intPart = [] ∧ frac = [] then none
    else
      match expPart with
      | none => some (decValue (digitsToNat (intPart ++ frac)) frac.length 0)
      | some es =>
        (parseExpPart es).map (fun e => decValue (digitsToNat (intPart ++ frac)) frac.length e)
  match rest with
  | [] => finish [] none
  | '.' :: rest2 =>
    let frac := rest2.takeWhile Char.isDigit
    (match rest2.dropWhile Char.isDigit with
     | [] => finish frac none
     | 'e' :: es => finish frac (some es)
     | 'E' :: es => finish frac (some es)
     | _ => none)
  | 'e' :: es => finish [] (some es)
  | 'E' :: es => finish [] (some es)
  | _ => none

/-- Value of one hexadecimal digit character; 99 (never below any radix) for a
non-digit. -/
def hexDigitVal (c : Char) : ℕ :=
  if c.isDigit then c.toNat - 48
  else if 97 ≤ c.toNat ∧ c.toNat ≤ 102 then c.toNat - 87
  else if 65 ≤ c.toNat ∧ c.toNat ≤ 70 then c.toNat - 55
  else 99

/-- Value of a digit string in the given radix. -/
def radixVal (base : ℕ) (cs : List Char) : ℕ :=
  cs.foldl (fun a c => base * a + hexDigitVal c) 0

/-- A `0x`/`0o`/`0b` integer literal body in the given radix: nonempty digits
of that radix, else not a numeric literal. -/
def parseRadix (base : ℕ) (ds : List Char) : Option JNum :=
  if ds ≠ [] ∧ ds.all (fun c => hexDigitVal c < base) then
    some (.fin (mkRat (radixVal base ds) 1))
  else none

/-- Negation of a JavaScript number. -/
def jnumNeg (n : JNum) : JNum :=
  match n with
  | .nan => .nan
  | .inf => .negInf
  | .negInf => .inf
  | .fin q => .fin (-q)

/-- An unsigned member of ToNumber's StrDecimalLiteral grammar: the literal
`Infinity` or an unsigned decimal literal.  (Signs and this production go
together; the radix forms admit no sign.) -/
def parseUnsignedNumeric (cs : List Char) : Option JNum :=
  if cs = "Infinity".toList then some .inf
  else (parseUnsignedDecimal cs).map .fin

/-- ToNumber's StrNumericLiteral grammar on a trimmed nonempty character
list: an optionally signed decimal literal or `Infinity`, or an unsigned
`0x`/`0X` hexadecimal, `0o`/`0O` octal or `0b`/`0B` binary integer literal. -/
def parseStrNumeric (cs : List Char) : Option JNum :=
  match cs with
  | '-' :: rest => (parseUnsignedNumeric rest).map jnumNeg
  | '+' :: rest => parseUnsignedNumeric rest
  | '0' :: c :: ds =>
    if c = 'x' ∨ c = 'X' then parseRadix 16 ds
    else if c = 'o' ∨ c = 'O' then parseRadix 8 ds
    else if c = 'b' ∨ c = 'B' then parseRadix 2 ds
    else parseUnsignedNumeric cs
  | _ => parseUnsignedNumeric cs

/-- Strip leading and trailing whitespace from a character list. -/
def trimChars (cs : List Char) : List Char :=
  ((cs.dropWhile Char.isWhitespace).reverse.dropWhile Char.isWhitespace).reverse

/-- JavaScript ToNumber on a string: trimmed-empty is 0, a StrNumericLiteral
(signed decimal with optional fraction and exponent, signed `Infinity`, or an
unsigned hexadecimal/octal/binary integer literal) is its value, anything
else is NaN. -/
def strToNumber (s : String) : JNum :=
  let t := trimChars s.toList
  if t = [] then .fin 0
  else
    match parseStrNumeric t with
    | some n => n
    | none => .nan

/-- JavaScript ToNumber on a primitive body-field value. -/
def jsToNumber (v : JPrim) : JNum :=
  match v with
  | .null => .fin 0
  | .bool b => .fin (if b then 1 else 0)
  | .num q => .fin q
  | .str s => strToNumber s

/-- `Math.floor`: NaN and the infinities propagate, finite values round
toward negative infinity. -/
def mathFloor (n : JNum) : JNum :=
  match n with
  | .nan => .nan
  | .inf => .inf
  | .negInf => .negInf
  | .fin q => .fin (mkRat (Rat.floor q) 1)

/-- Rendering of a JavaScript number inside a template literal.  All values
reaching this in the handlers are `Math.floor` outputs, hence NaN or integral;
the non-integral clause is unreachable there. -/
def jnumToString (n : JNum) : String :=
  match n with
  | .nan => "NaN"
  | .inf => "Infinity"
  | .negInf => "-Infinity"
  | .fin q => if q.den = 1 then toString q.num else toString q.num ++ "/" ++ toString q.den

/-- Truncation toward zero of a rational: the operation the spec's word
"truncation" denotes (distinct from `Math.floor` on negative non-integers). -/
def ratTruncate (q : ℚ) : ℤ :=
  if 0 ≤ q then Rat.floor q else -(Rat.floor (-q))

/-! ## Percent-encoding -/

/-- Hexadecimal digit character (uppercase), for percent-escapes. -/
def hexChar (n : ℕ) : Char :=
  if n < 10 then Char.ofNat (48 + n) else Char.ofNat (55 + n)

/-- Two-digit uppercase hex of a byte. -/
def byteHex (b : ℕ) : String :=
  String.mk [hexChar (b / 16), hexChar (b % 16)]

/-- UTF-8 encoding of one character, as a list of byte values. -/
def utf8Bytes (c : Char) : List ℕ :=
  let n := c.toNat
  if n < 128 then [n]
  else if n < 2048 then [192 + n / 64, 128 + n % 64]
  else if n < 65536 then [224 + n / 4096, 128 + (n / 64) % 64, 128 + n % 64]
  else [240 + n / 262144, 128 + (n / 4096) % 64, 128 + (n / 64) % 64, 128 + n % 64]

/-- Percent-escape of one character: one `%HH` group per UTF-8 byte. -/
def percentEncodeChar (c : Char) : String :=
  String.join ((utf8Bytes c).map (fun b => "%" ++ byteHex b))

/-- Characters `encodeURIComponent` leaves unescaped. -/
def isUriUnescaped (c : Char) : Bool :=
  c.isAlphanum || c = '-' || c = '_' || c = '.' || c = '!' || c = '~' ||
    c = '*' || c = Char.ofNat 39 || c = '(' || c = ')'

/-- JavaScript `encodeURIComponent`. -/
def encodeURIComponent (s : String) : String :=
  String.join (s.toList.map (fun c => if isUriUnescaped c then String.singleton c else percentEncodeChar c))

/-- Characters `URLSearchParams` serialisation leaves unescaped
(x-www-form-urlencoded). -/
def isFormUnescaped (c : Char) : Bool :=
  c.isAlphanum || c = '*' || c = '-' || c = '.' || c = '_'

/-- x-www-form-urlencoded escaping of one string (space becomes `+`). -/
def formEncode (s : String) : String :=
  String.join (s.toList.map (fun c =>
    if isFormUnescaped c then String.singleton c
    else if c = ' ' then "+"
    else percentEncodeChar c))

/-- `URLSearchParams.toString()`: `k=v` pairs joined by `&`, both sides
form-encoded. -/
def formSerialize (ps : List (String × String)) : String :=
  String.intercalate "&" (ps.map (fun p => formEncode p.1 ++ "=" ++ formEncode p.2))

/-! ## HTTP client model (axios) -/

/-- Outcome of the single outbound HTTP attempt a handler makes: either a
transport-level failure (no response at all) or an HTTP response with a status
and a body (an empty body, as in a 204, is the empty string datum). -/
inductive HttpOutcome where
  | transport
  | response (status : ℕ) (body : Json)

/-- Axios settlement with the default `validateStatus`: a 2xx response
resolves with its body as `data`; any other status rejects with an error whose
`response` field carries status and body; a transport failure rejects with no
`response`.  The handlers' try/catch structure branches on exactly this. -/
def axiosSettle (u : HttpOutcome) : Except (Option (ℕ × Json)) Json :=
  match u with
  | .transport => .error none
  | .response s b => if 200 ≤ s ∧ s < 300 then .ok b else .error (some (s, b))

/-- `error.response` of a rejected call, as a function of the outcome. -/
def failInfo (u : HttpOutcome) : Option (ℕ × Json) :=
  match u with
  | .transport => none
  | .response s b => some (s, b)

/-- Whether the outcome rejects (lands in the handler's catch block). -/
def axiosFails (u : HttpOutcome) : Bool :=
  match axiosSettle u with
  | .ok _ => false
  | .error _ => true

/-- `error.response?.status || 500`: the upstream status when the rejection
carries a response (a zero status, never produced by HTTP, would be falsy),
else 500. -/
def statusOr500 (e : Option (ℕ × Json)) : ℕ :=
  match e with
  | none => 500
  | some (s, _) => if s = 0 then 500 else s

/-- `error.response?.status === n`. -/
def respStatusIs (e : Option (ℕ × Json)) (n : ℕ) : Bool :=
  match e with
  | none => false
  | some (s, _) => s == n

/-! ## Responses and outbound requests -/

/-- A handler's HTTP response: either `res.status(st).json(body)` (with
`res.json(body)` defaulting the status to 200) or `res.redirect(url)`. -/
inductive HResponse where
  | json (status : ℕ) (body : Json)
  | redirect (url : String)

/-- The outbound request a proxy handler issues to the upstream API. -/
structure UpstreamReq where
  method : String
  url : String
  authHeader : Option String
  payload : Option Json

/-- The 401 response `res.status(401).json(\x7berror: 'No token provided'\x7d)`
shared by all nine resource proxy handlers. -/
def noTokenRes : HResponse :=
  .json 401 (Json.obj [("error", Json.str "No token provided")])

/-- Catch-block body `\x7berror: msg, details: error.response?.data\x7d`: when the
rejection has no response, `details` is `undefined` and `res.json` drops the
key. -/
def errBody (msg : String) (e : Option (ℕ × Json)) : Json :=
  Json.obj ([("error", Json.str msg)] ++
    (match e with
     | none => []
     | some (_, d) => [("details", d)]))

/-- `req.headers.authorization?.replace('Bearer ', '')`: `undefined` when the
header is absent, else the header with the first occurrence of `'Bearer '`
removed. -/
def extractToken (auth : Option String) : Option String :=
  auth.map (fun a => jsReplaceFirst a "Bearer " "")

/-- The extracted token combined with the handlers' `if (!token)` falsiness
check: `none` exactly when the handler takes the 401 path. -/
def tokenOf (auth : Option String) : Option String :=
  match extractToken auth with
  | none => none
  | some t => if t = "" then none else some t

/-! ## The nine resource proxy handlers

Each takes the request data the source handler reads plus the outcome of its
single upstream call, and returns the response together with the upstream
request issued (`none` when the handler returns before calling upstream). -/

/-- GET `/api/playlists`. -/
def playlistsHandler (auth : Option String) (u : HttpOutcome) :
    HResponse × Option UpstreamReq :=
  match tokenOf auth with
  | none => (noTokenRes, none)
  | some t =>
    let call : UpstreamReq :=
      ⟨"GET", "https://api.spotify.com/v1/me/playlists?limit=50", some ("Bearer " ++ t), none⟩
    match axiosSettle u with
    | .ok data => (.json 200 data, some call)
    | .error e => (.json (statusOr500 e) (errBody "Failed to fetch playlists" e), some call)

/-- GET `/api/search`; `q` is `req.query.q`. -/
def searchHandler (auth : Option String) (q : Option String) (u : HttpOutcome) :
    HResponse × Option UpstreamReq :=
  match tokenOf auth with
  | none => (noTokenRes, none)
  | some t =>
    if !(strTruthy q) then
      (.json 400 (Json.obj [("error", Json.str "No search query provided")]), none)
    else
      let query := match q with | some s => s | none => ""
      let call : UpstreamReq :=
        ⟨"GET",
         "https://api.spotify.com/v1/search?q=" ++ encodeURIComponent query ++
           "&type=track,album,artist&limit=20",
         some ("Bearer " ++ t), none⟩
      match axiosSettle u with
      | .ok data => (.json 200 data, some call)
      | .error e => (.json (statusOr500 e) (errBody "Search failed" e), some call)

/-- Payload built by POST `/api/play` from the optional `uri` body field:
`let body = \x7b\x7d; if (uri && uri.includes('track:')) body = \x7buris: [uri]\x7d;
else if (uri) body = \x7bcontext_uri: uri\x7d`. -/
def playBody (uri : Option String) : Json :=
  if strTruthy uri && jsIncludes (match uri with | some s => s | none => "") "track:" then
    Json.obj [("uris", Json.arr [Json.str (match uri with | some s => s | none => "")])]
  else if strTruthy uri then
    Json.obj [("context_uri", Json.str (match uri with | some s => s | none => ""))]
  else
    Json.obj []

/-- The clarifying message POST `/api/play` returns on an upstream 404. -/
def noDeviceMsg : String :=
  "No active device found. Please open Spotify on a device first."

/-- POST `/api/play`; `uri` is the optional `uri` body field. -/
def playHandler (auth : Option String) (uri : Option String) (u : HttpOutcome) :
    HResponse × Option UpstreamReq :=
  match tokenOf auth with
  | none => (noTokenRes, none)
  | some t =>
    let call : UpstreamReq :=
      ⟨"PUT", "https://api.spotify.com/v1/me/player/play", some ("Bearer " ++ t),
       some (playBody uri)⟩
    match axiosSettle u with
    | .ok _ => (.json 200 (Json.obj [("success", Json.bool true)]), some call)
    | .error e =>
      if respStatusIs e 404 then
        (.json 404 (errBody noDeviceMsg e), some call)
      else
        (.json (statusOr500 e) (errBody "Playback failed" e), some call)

/-- POST `/api/pause`. -/
def pauseHandler (auth : Option String) (u : HttpOutcome) :
    HResponse × Option UpstreamReq :=
  match tokenOf auth with
  | none => (noTokenRes, none)
  | some t =>
    let call : UpstreamReq :=
      ⟨"PUT", "https://api.spotify.com/v1/me/player/pause", some ("Bearer " ++ t),
       some (Json.obj [])⟩
    match axiosSettle u with
    | .ok _ => (.json 200 (Json.obj [("success", Json.bool true)]), some call)
    | .error e => (.json (statusOr500 e) (errBody "Pause failed" e), some call)

/-- POST `/api/next`. -/
def nextHandler (auth : Option String) (u : HttpOutcome) :
    HResponse × Option UpstreamReq :=
  match tokenOf auth with
  | none => (noTokenRes, none)
  | some t =>
    let call : UpstreamReq :=
      ⟨"POST", "https://api.spotify.com/v1/me/player/next", some ("Bearer " ++ t),
       some (Json.obj [])⟩
    match axiosSettle u with
    | .ok _ => (.json 200 (Json.obj [("success", Json.bool true)]), some call)
    | .error e => (.json (statusOr500 e) (errBody "Next track failed" e), some call)

/-- POST `/api/previous`. -/
def previousHandler (auth : Option String) (u : HttpOutcome) :
    HResponse × Option UpstreamReq :=
  match tokenOf auth with
  | none => (noTokenRes, none)
  | some t =>
    let call : UpstreamReq :=
      ⟨"POST", "https://api.spotify.com/v1/me/player/previous", some ("Bearer " ++ t),
       some (Json.obj [])⟩
    match axiosSettle u with
    | .ok _ => (.json 200 (Json.obj [("success", Json.bool true)]), some call)
    | .error e => (.json (statusOr500 e) (errBody "Previous track failed" e), some call)

/-- The normalized empty playback state the source builds in its
`error.response?.status === 204` branch. -/
def normalizedCurrentBody : Json :=
  Json.obj [("is_playing", Json.bool false), ("item", Json.null), ("progress_ms", Json.num 0)]

/-- GET `/api/current`.  The catch block first tests
`error.response?.status === 204` and returns the normalized empty state there;
note that under `axiosSettle` a 204 resolves, so that branch is only reachable
if a rejection could carry status 204. -/
def currentHandler (auth : Option String) (u : HttpOutcome) :
    HResponse × Option UpstreamReq :=
  match tokenOf auth with
  | none => (noTokenRes, none)
  | some t =>
    let call : UpstreamReq :=
      ⟨"GET", "https://api.spotify.com/v1/me/player", some ("Bearer " ++ t), none⟩
    match axiosSettle u with
    | .ok data => (.json 200 data, some call)
    | .error e =>
      if respStatusIs e 204 then
        (.json 200 normalizedCurrentBody, some call)
      else
        (.json (statusOr500 e) (errBody "Failed to get playback state" e), some call)

/-- POST `/api/seek`; `position_ms` is the body field (`none` = absent or
explicitly `undefined`, the only case `position_ms === undefined` catches). -/
def seekHandler (auth : Option String) (position_ms : Option JPrim) (u : HttpOutcome) :
    HResponse × Option UpstreamReq :=
  match tokenOf auth with
  | none => (noTokenRes, none)
  | some t =>
    match position_ms with
    | none => (.json 400 (Json.obj [("error", Json.str "No position provided")]), none)
    | some v =>
      let call : UpstreamReq :=
        ⟨"PUT",
         "https://api.spotify.com/v1/me/player/seek?position_ms=" ++
           jnumToString (mathFloor (jsToNumber v)),
         some ("Bearer " ++ t), some (Json.obj [])⟩
      match axiosSettle u with
      | .ok _ => (.json 200 (Json.obj [("success", Json.bool true)]), some call)
      | .error e => (.json (statusOr500 e) (errBody "Seek failed" e), some call)

/-- POST `/api/volume`; `volume_percent` is the body field. -/
def volumeHandler (auth : Option String) (volume_percent : Option JPrim) (u : HttpOutcome) :
    HResponse × Option UpstreamReq :=
  match tokenOf auth with
  | none => (noTokenRes, none)
  | some t =>
    match volume_percent with
    | none => (.json 400 (Json.obj [("error", Json.str "No volume provided")]), none)
    | some v =>
      let call : UpstreamReq :=
        ⟨"PUT",
         "https://api.spotify.com/v1/me/player/volume?volume_percent=" ++
           jnumToString (mathFloor (jsToNumber v)),
         some ("Bearer " ++ t), some (Json.obj [])⟩
      match axiosSettle u with
      | .ok _ => (.json 200 (Json.obj [("success", Json.bool true)]), some call)
      | .error e => (.json (statusOr500 e) (errBody "Volume change failed" e), some call)

/-! ## The OAuth callback handler -/

/-- Field lookup on a JSON object (destructuring `response.data`); `none` is
`undefined`. -/
def jsonLookup (j : Json) (k : String) : Option Json :=
  match j with
  | .obj fs => fs.lookup k
  | _ => none

/-- Truthiness of a possibly-undefined JSON value, as tested by
`if (refresh_token)`. -/
def jsTruthy (v : Option Json) : Bool :=
  match v with
  | none => false
  | some .null => false
  | some (.bool b) => b
  | some (.num q) => !(q == 0)
  | some (.str s) => !(s == "")
  | some (.arr _) => true
  | some (.obj _) => true

/-- String conversion of a possibly-undefined JSON value, as performed by the
`URLSearchParams` record constructor on its values.  Array elements follow
`Array.prototype.toString` (null renders empty inside an array). -/
def jsDisplay (v : Option Json) : String :=
  match v with
  | none => "undefined"
  | some .null => "null"
  | some (.bool b) => if b then "true" else "false"
  | some (.num q) => if q.den = 1 then toString q.num else toString q.num ++ "/" ++ toString q.den
  | some (.str s) => s
  | some (.obj _) => "[object Object]"
  | some (.arr xs) =>
    String.intercalate "," (xs.map (fun x =>
      match x with
      | .null => ""
      | .str s => s
      | .bool b => if b then "true" else "false"
      | .num q => if q.den = 1 then toString q.num else toString q.num ++ "/" ++ toString q.den
      | .obj _ => "[object Object]"
      | .arr _ => ""))

/-- The query-parameter list the callback builds on a successful exchange:
`new URLSearchParams(\x7baccess_token\x7d)` then
`if (refresh_token) params.append('refresh_token', refresh_token)`. -/
def callbackSuccessParams (data : Json) : List (String × String) :=
  [("access_token", jsDisplay (jsonLookup data "access_token"))] ++
    (if jsTruthy (jsonLookup data "refresh_token") then
      [("refresh_token", jsDisplay (jsonLookup data "refresh_token"))]
     else [])

/-- GET `/callback`.  `code` and `error` are the query parameters; `ex` is the
outcome of the token-exchange POST when one is made.  The Boolean records
whether the token-exchange call was issued.  (The exchange request itself —
token endpoint URL, Basic client credentials, form body — is fixed
configuration no claim inspects, so only its occurrence is tracked.)
On a resolved exchange the source destructures `response.data` inside the try
block; when the parsed body is JSON null that destructuring throws a
TypeError, which the catch turns into the `auth_failed` redirect (an empty
2xx body parses to the empty string, not null, and destructuring any other
value yields undefined fields, as `jsonLookup` does). -/
def callbackHandler (frontend : String) (code error : Option String) (ex : HttpOutcome) :
    HResponse × Bool :=
  if strTruthy error then
    (.redirect (frontend ++ "/?error=" ++ (match error with | some e => e | none => "undefined")),
     false)
  else if !(strTruthy code) then
    (.redirect (frontend ++ "/?error=no_code"), false)
  else
    match axiosSettle ex with
    | .ok data =>
      match data with
      | .null => (.redirect (frontend ++ "/?error=auth_failed"), true)
      | _ => (.redirect (frontend ++ "/?" ++ formSerialize (callbackSuccessParams data)), true)
    | .error _ => (.redirect (frontend ++ "/?error=auth_failed"), true)

/-! ## Helper lemmas -/

theorem tokenOf_none_eq : tokenOf none = none := rfl

theorem tokenOf_some_eq (a : String) :
    tokenOf (some a) =
      if jsReplaceFirst a "Bearer " "" = "" then none
      else some (jsReplaceFirst a "Bearer " "") := rfl

theorem axiosFails_of_2xx (s : ℕ) (b : Json) (hc : 200 ≤ s ∧ s < 300) :
    axiosFails (.response s b) = false := by
  simp [axiosFails, axiosSettle, hc]

theorem axiosSettle_of_fails (u : HttpOutcome) (h : axiosFails u = true) :
    axiosSettle u = .error (failInfo u) := by
  cases u with
  | transport => rfl
  | response s b =>
    by_cases hc : 200 ≤ s ∧ s < 300
    · rw [axiosFails_of_2xx s b hc] at h
      exact Bool.noConfusion h
    · simp [axiosSettle, failInfo, hc]

theorem status_not_204_of_fails (u : HttpOutcome) (h : axiosFails u = true) :
    respStatusIs (failInfo u) 204 = false := by
  cases u with
  | transport => rfl
  | response s b =>
    by_cases hc : 200 ≤ s ∧ s < 300
    · rw [axiosFails_of_2xx s b hc] at h
      exact Bool.noConfusion h
    · have hs : s ≠ 204 := fun hs => hc (by omega)
      simp [respStatusIs, failInfo, hs]

theorem playlists_call_eq (a : String) (u : HttpOutcome)
    (he : jsReplaceFirst a "Bearer " "" ≠ "") :
    (playlistsHandler (some a) u).2 =
      some ⟨"GET", "https://api.spotify.com/v1/me/playlists?limit=50",
            some ("Bearer " ++ jsReplaceFirst a "Bearer " ""), none⟩ := by
  unfold playlistsHandler
  rw [tokenOf_some_eq, if_neg he]
  cases hax : axiosSettle u <;> simp [hax]

theorem search_call_eq (a s : String) (u : HttpOutcome)
    (he : jsReplaceFirst a "Bearer " "" ≠ "") (hq : s ≠ "") :
    (searchHandler (some a) (some s) u).2 =
      some ⟨"GET",
            "https://api.spotify.com/v1/search?q=" ++ encodeURIComponent s ++
              "&type=track,album,artist&limit=20",
            some ("Bearer " ++ jsReplaceFirst a "Bearer " ""), none⟩ := by
  unfold searchHandler
  rw [tokenOf_some_eq, if_neg he]
  cases hax : axiosSettle u <;> simp [hax, strTruthy, hq]

theorem play_call_eq (a : String) (uri : Option String) (u : HttpOutcome)
    (he : jsReplaceFirst a "Bearer " "" ≠ "") :
    (playHandler (some a) uri u).2 =
      some ⟨"PUT", "https://api.spotify.com/v1/me/player/play",
            some ("Bearer " ++ jsReplaceFirst a "Bearer " ""), some (playBody uri)⟩ := by
  unfold playHandler
  rw [tokenOf_some_eq, if_neg he]
  cases hax : axiosSettle u with
  | ok d => simp [hax]
  | error e =>
    by_cases h4 : respStatusIs e 404 = true <;> simp [hax, h4]

theorem pause_call_eq (a : String) (u : HttpOutcome)
    (he : jsReplaceFirst a "Bearer " "" ≠ "") :
    (pauseHandler (some a) u).2 =
      some ⟨"PUT", "https://api.spotify.com/v1/me/player/pause",
            some ("Bearer " ++ jsReplaceFirst a "Bearer " ""), some (Json.obj [])⟩ := by
  unfold pauseHandler
  rw [tokenOf_some_eq, if_neg he]
  cases hax : axiosSettle u <;> simp [hax]

theorem next_call_eq (a : String) (u : HttpOutcome)
    (he : jsReplaceFirst a "Bearer " "" ≠ "") :
    (nextHandler (some a) u).2 =
      some ⟨"POST", "https://api.spotify.com/v1/me/player/next",
            some ("Bearer " ++ jsReplaceFirst a "Bearer " ""), some (Json.obj [])⟩ := by
  unfold nextHandler
  rw [tokenOf_some_eq, if_neg he]
  cases hax : axiosSettle u <;> simp [hax]

theorem previous_call_eq (a : String) (u : HttpOutcome)
    (he : jsReplaceFirst a "Bearer " "" ≠ "") :
    (previousHandler (some a) u).2 =
      some ⟨"POST", "https://api.spotify.com/v1/me/player/previous",
            some ("Bearer " ++ jsReplaceFirst a "Bearer " ""), some (Json.obj [])⟩ := by
  unfold previousHandler
  rw [tokenOf_some_eq, if_neg he]
  cases hax : axiosSettle u <;> simp [hax]

theorem current_call_eq (a : String) (u : HttpOutcome)
    (he : jsReplaceFirst a "Bearer " "" ≠ "") :
    (currentHandler (some a) u).2 =
      some ⟨"GET", "https://api.spotify.com/v1/me/player",
            some ("Bearer " ++ jsReplaceFirst a "Bearer " ""), none⟩ := by
  unfold currentHandler
  rw [tokenOf_some_eq, if_neg he]
  cases hax : axiosSettle u with
  | ok d => simp [hax]
  | error e =>
    by_cases h4 : respStatusIs e 204 = true <;> simp [hax, h4]

theorem seek_call_eq (a : String) (v : JPrim) (u : HttpOutcome)
    (he : jsReplaceFirst a "Bearer " "" ≠ "") :
    (seekHandler (some a) (some v) u).2 =
      some ⟨"PUT",
            "https://api.spotify.com/v1/me/player/seek?position_ms=" ++
              jnumToString (mathFloor (jsToNumber v)),
            some ("Bearer " ++ jsReplaceFirst a "Bearer " ""), some (Json.obj [])⟩ := by
  unfold seekHandler
  rw [tokenOf_some_eq, if_neg he]
  cases hax : axiosSettle u <;> simp [hax]

theorem volume_call_eq (a : String) (v : JPrim) (u : HttpOutcome)
    (he : jsReplaceFirst a "Bearer " "" ≠ "") :
    (volumeHandler (some a) (some v) u).2 =
      some ⟨"PUT",
            "https://api.spotify.com/v1/me/player/volume?volume_percent=" ++
              jnumToString (mathFloor (jsToNumber v)),
            some ("Bearer " ++ jsReplaceFirst a "Bearer " ""), some (Json.obj [])⟩ := by
  unfold volumeHandler
  rw [tokenOf_some_eq, if_neg he]
  cases hax : axiosSettle u <;> simp [hax]

theorem handlers_reject_empty_token (a : String) (u : HttpOutcome)
    (q uri : Option String) (pos vol : Option JPrim)
    (he : jsReplaceFirst a "Bearer " "" = "") :
    playlistsHandler (some a) u = (noTokenRes, none) ∧
    searchHandler (some a) q u = (noTokenRes, none) ∧
    playHandler (some a) uri u = (noTokenRes, none) ∧
    pauseHandler (some a) u = (noTokenRes, none) ∧
    nextHandler (some a) u = (noTokenRes, none) ∧
    previousHandler (some a) u = (noTokenRes, none) ∧
    currentHandler (some a) u = (noTokenRes, none) ∧
    seekHandler (some a) pos u = (noTokenRes, none) ∧
    volumeHandler (some a) vol u = (noTokenRes, none) := by
  unfold playlistsHandler searchHandler playHandler pauseHandler nextHandler
    previousHandler currentHandler seekHandler volumeHandler
  rw [tokenOf_some_eq, if_pos he]
  exact ⟨rfl, rfl, rfl, rfl, rfl, rfl, rfl, rfl, rfl⟩

theorem search_no_query (a : String) (q : Option String) (u : HttpOutcome)
    (he : jsReplaceFirst a "Bearer " "" ≠ "") (hq : strTruthy q = false) :
    searchHandler (some a) q u =
      (.json 400 (Json.obj [("error", Json.str "No search query provided")]), none) := by
  unfold searchHandler
  rw [tokenOf_some_eq, if_neg he]
  simp [hq]

theorem seek_no_position (a : String) (u : HttpOutcome)
    (he : jsReplaceFirst a "Bearer " "" ≠ "") :
    seekHandler (some a) none u =
      (.json 400 (Json.obj [("error", Json.str "No position provided")]), none) := by
  unfold seekHandler
  rw [tokenOf_some_eq, if_neg he]

theorem volume_no_volume (a : String) (u : HttpOutcome)
    (he : jsReplaceFirst a "Bearer " "" ≠ "") :
    volumeHandler (some a) none u =
      (.json 400 (Json.obj [("error", Json.str "No volume provided")]), none) := by
  unfold volumeHandler
  rw [tokenOf_some_eq, if_neg he]

/-! ## Claim theorems -/

/-- Claim C1: every one of the nine resource proxy handlers, on a request with
no Authorization header, responds 401 with body consisting of the single field
`error` = "No token provided" (the `noTokenRes` response) and issues no
upstream call, whatever the other request data and whatever the upstream would
have answered. -/
theorem proxy_reject_missing_token :
    ∀ (u : HttpOutcome) (q uri : Option String) (pos vol : Option JPrim),
      playlistsHandler none u = (noTokenRes, none) ∧
      searchHandler none q u = (noTokenRes, none) ∧
      playHandler none uri u = (noTokenRes, none) ∧
      pauseHandler none u = (noTokenRes, none) ∧
      nextHandler none u = (noTokenRes, none) ∧
      previousHandler none u = (noTokenRes, none) ∧
      currentHandler none u = (noTokenRes, none) ∧
      seekHandler none pos u = (noTokenRes, none) ∧
      volumeHandler none vol u = (noTokenRes, none) :=
  fun _ _ _ _ _ => ⟨rfl, rfl, rfl, rfl, rfl, rfl, rfl, rfl, rfl⟩

/-- Claim C3 (code bug): when the upstream playback-state call returns 204
with an empty body, axios resolves it (204 is 2xx), so `/api/current` takes
its success path and relays the empty-string datum as the 200 response body;
the normalized empty state built in the catch block is NOT returned, because
a 204 never lands in the catch block.  This theorem evaluates the handler at
that failing input and shows the body differs from the normalized state the
spec requires. -/
theorem current_nocontent_divergence :
    currentHandler (some "Bearer tok") (.response 204 (Json.str "")) =
      (.json 200 (Json.str ""),
       some ⟨"GET", "https://api.spotify.com/v1/me/player", some "Bearer tok", none⟩) ∧
    Json.str "" ≠ normalizedCurrentBody := by
  refine ⟨rfl, fun h => ?_⟩
  rw [normalizedCurrentBody] at h
  exact Json.noConfusion h

/-- Claim C4 (counterexample): the extraction is not a prefix strip.  For the
header value "a Bearer b" the literal prefix "Bearer " is absent, so the claim
says the whole header value is forwarded; the handler instead forwards "a b",
because `replace('Bearer ', '')` removes the first occurrence of the substring
anywhere in the header. -/
theorem bearer_strip_not_prefix_only :
    (playlistsHandler (some "a Bearer b") (.response 200 Json.null)).2 =
      some ⟨"GET", "https://api.spotify.com/v1/me/playlists?limit=50",
            some "Bearer a b", none⟩ ∧
    "a b" ≠ "a Bearer b" :=
  ⟨rfl, by decide⟩

/-- Claim C4 (amended): for every resource proxy request whose Authorization
header is present, the token is the header value with the first occurrence of
the substring "Bearer " removed (the whole value when that substring does not
occur); when that token is empty the handler responds 401 with no upstream
call, and otherwise every upstream call any of the nine handlers issues
carries the token in an "Authorization: Bearer token" header. -/
theorem bearer_token_forwarded (a : String) (u : HttpOutcome)
    (q uri : Option String) (pos vol : Option JPrim) :
    (jsReplaceFirst a "Bearer " "" = "" →
      playlistsHandler (some a) u = (noTokenRes, none) ∧
      searchHandler (some a) q u = (noTokenRes, none) ∧
      playHandler (some a) uri u = (noTokenRes, none) ∧
      pauseHandler (some a) u = (noTokenRes, none) ∧
      nextHandler (some a) u = (noTokenRes, none) ∧
      previousHandler (some a) u = (noTokenRes, none) ∧
      currentHandler (some a) u = (noTokenRes, none) ∧
      seekHandler (some a) pos u = (noTokenRes, none) ∧
      volumeHandler (some a) vol u = (noTokenRes, none)) ∧
    (∀ c, (playlistsHandler (some a) u).2 = some c →
      c.authHeader = some ("Bearer " ++ jsReplaceFirst a "Bearer " "")) ∧
    (∀ c, (searchHandler (some a) q u).2 = some c →
      c.authHeader = some ("Bearer " ++ jsReplaceFirst a "Bearer " "")) ∧
    (∀ c, (playHandler (some a) uri u).2 = some c →
      c.authHeader = some ("Bearer " ++ jsReplaceFirst a "Bearer " "")) ∧
    (∀ c, (pauseHandler (some a) u).2 = some c →
      c.authHeader = some ("Bearer " ++ jsReplaceFirst a "Bearer " "")) ∧
    (∀ c, (nextHandler (some a) u).2 = some c →
      c.authHeader = some ("Bearer " ++ jsReplaceFirst a "Bearer " "")) ∧
    (∀ c, (previousHandler (some a) u).2 = some c →
      c.authHeader = some ("Bearer " ++ jsReplaceFirst a "Bearer " "")) ∧
    (∀ c, (currentHandler (some a) u).2 = some c →
      c.authHeader = some ("Bearer " ++ jsReplaceFirst a "Bearer " "")) ∧
    (∀ c, (seekHandler (some a) pos u).2 = some c →
      c.authHeader = some ("Bearer " ++ jsReplaceFirst a "Bearer " "")) ∧
    (∀ c, (volumeHandler (some a) vol u).2 = some c →
      c.authHeader = some ("Bearer " ++ jsReplaceFirst a "Bearer " "")) := by
  by_cases he : jsReplaceFirst a "Bearer " "" = ""
  · obtain ⟨h1, h2, h3, h4, h5, h6, h7, h8, h9⟩ :=
      handlers_reject_empty_token a u q uri pos vol he
    refine ⟨fun _ => ⟨h1, h2, h3, h4, h5, h6, h7, h8, h9⟩, ?_, ?_, ?_, ?_, ?_, ?_, ?_, ?_, ?_⟩ <;>
      intro c hc
    · rw [h1] at hc; exact Option.noConfusion hc
    · rw [h2] at hc; exact Option.noConfusion hc
    · rw [h3] at hc; exact Option.noConfusion hc
    · rw [h4] at hc; exact Option.noConfusion hc
    · rw [h5] at hc; exact Option.noConfusion hc
    · rw [h6] at hc; exact Option.noConfusion hc
    · rw [h7] at hc; exact Option.noConfusion hc
    · rw [h8] at hc; exact Option.noConfusion hc
    · rw [h9] at hc; exact Option.noConfusion hc
  · refine ⟨fun h => absurd h he, ?_, ?_, ?_, ?_, ?_, ?_, ?_, ?_, ?_⟩ <;> intro c hc
    · rw [playlists_call_eq a u he] at hc
      exact (Option.some.inj hc) ▸ rfl
    · rcases q with _ | s
      · rw [search_no_query a none u he rfl] at hc
        exact Option.noConfusion hc
      · by_cases hs : s = ""
        · rw [search_no_query a (some s) u he (by simp [strTruthy, hs])] at hc
          exact Option.noConfusion hc
        · rw [search_call_eq a s u he hs] at hc
          exact (Option.some.inj hc) ▸ rfl
    · rw [play_call_eq a uri u he] at hc
      exact (Option.some.inj hc) ▸ rfl
    · rw [pause_call_eq a u he] at hc
      exact (Option.some.inj hc) ▸ rfl
    · rw [next_call_eq a u he] at hc
      exact (Option.some.inj hc) ▸ rfl
    · rw [previous_call_eq a u he] at hc
      exact (Option.some.inj hc) ▸ rfl
    · rw [current_call_eq a u he] at hc
      exact (Option.some.inj hc) ▸ rfl
    · rcases pos with _ | v
      · rw [seek_no_position a u he] at hc
        exact Option.noConfusion hc
      · rw [seek_call_eq a v u he] at hc
        exact (Option.some.inj hc) ▸ rfl
    · rcases vol with _ | v
      · rw [volume_no_volume a u he] at hc
        exact Option.noConfusion hc
      · rw [volume_call_eq a v u he] at hc
        exact (Option.some.inj hc) ▸ rfl

/-- Claim C4 (witness): the amended theorem applied at the header
"Bearer T" and a concrete upstream outcome. -/
theorem bearer_token_forwarded_check :
    UpstreamReq.authHeader
        ⟨"GET", "https://api.spotify.com/v1/me/playlists?limit=50", some "Bearer T", none⟩ =
      some ("Bearer " ++ jsReplaceFirst "Bearer T" "Bearer " "") :=
  (bearer_token_forwarded "Bearer T" (.response 200 Json.null) none none none none).2.1 _ rfl

theorem jnumToString_floor (q : ℚ) :
    jnumToString (mathFloor (jsToNumber (.num q))) = toString (Rat.floor q) := by
  show jnumToString (.fin (mkRat (Rat.floor q) 1)) = toString (Rat.floor q)
  rw [Rat.mkRat_one]
  unfold jnumToString
  simp

/-- Claim C5 (counterexample): the numeric parameter is floored, not
truncated.  At `position_ms = -1.5` the handler's upstream URL carries `-2`
(the floor), while the truncation of `-1.5` to an integer is `-1`. -/
theorem seek_negative_not_truncated :
    (seekHandler (some "Bearer tok") (some (.num (mkRat (-3) 2)))
        (.response 200 Json.null)).2 =
      some ⟨"PUT", "https://api.spotify.com/v1/me/player/seek?position_ms=-2",
            some "Bearer tok", some (Json.obj [])⟩ ∧
    ratTruncate (mkRat (-3) 2) = -1 ∧ (-2 : ℤ) ≠ -1 :=
  ⟨rfl, by decide, by decide⟩

/-- Claim C5 (amended): for every `/api/seek` request with a bearer token and
a numeric `position_ms`, and every `/api/volume` request with a bearer token
and a numeric `volume_percent`, the value sent upstream is the FLOOR of that
number (rounding toward negative infinity) — which agrees with truncation on
nonnegative values such as 1500.7 ↦ 1500, but rounds away from zero on
negative fractional values. -/
theorem seek_volume_floor_amended (a : String) (q : ℚ) (u : HttpOutcome)
    (he : jsReplaceFirst a "Bearer " "" ≠ "") :
    (seekHandler (some a) (some (.num q)) u).2 =
      some ⟨"PUT",
            "https://api.spotify.com/v1/me/player/seek?position_ms=" ++
              toString (Rat.floor q),
            some ("Bearer " ++ jsReplaceFirst a "Bearer " ""), some (Json.obj [])⟩ ∧
    (volumeHandler (some a) (some (.num q)) u).2 =
      some ⟨"PUT",
            "https://api.spotify.com/v1/me/player/volume?volume_percent=" ++
              toString (Rat.floor q),
            some ("Bearer " ++ jsReplaceFirst a "Bearer " ""), some (Json.obj [])⟩ := by
  constructor
  · rw [seek_call_eq a (.num q) u he, jnumToString_floor]
  · rw [volume_call_eq a (.num q) u he, jnumToString_floor]

/-- Claim C5 (witness): the amended theorem applied at the spec's example
input 1500.7 with a concrete token and upstream outcome. -/
theorem seek_volume_floor_check :
    (seekHandler (some "Bearer t") (some (.num (mkRat 15007 10)))
        (.response 200 Json.null)).2 =
      some ⟨"PUT",
            "https://api.spotify.com/v1/me/player/seek?position_ms=" ++
              toString (Rat.floor (mkRat 15007 10)),
            some ("Bearer " ++ jsReplaceFirst "Bearer t" "Bearer " ""),
            some (Json.obj [])⟩ :=
  (seek_volume_floor_amended "Bearer t" (mkRat 15007 10)
    (.response 200 Json.null) (by decide)).1

theorem playBody_track (s : String) (h : jsIncludes s "track:" = true) :
    playBody (some s) = Json.obj [("uris", Json.arr [Json.str s])] := by
  have hs : s ≠ "" := by rintro rfl; exact absurd h (by decide)
  unfold playBody
  simp [strTruthy, hs, h]

theorem playBody_context (s : String) (hs : s ≠ "") (h : jsIncludes s "track:" = false) :
    playBody (some s) = Json.obj [("context_uri", Json.str s)] := by
  unfold playBody
  simp [strTruthy, hs, h]

/-- Claim C6: `/api/play` with a bearer token sends `\x7buris: [uri]\x7d` when the
supplied uri is track-scoped (contains "track:"), `\x7bcontext_uri: uri\x7d` for any
other nonempty uri, and an empty payload when no uri is supplied; an upstream
404 yields status 404 with the clarifying no-active-device message, while
every other upstream failure yields the generic "Playback failed" message,
and the two messages are distinct. -/
theorem play_payload_and_device_handling (a : String)
    (he : jsReplaceFirst a "Bearer " "" ≠ "") :
    (∀ (u : HttpOutcome) (s : String), jsIncludes s "track:" = true →
      (playHandler (some a) (some s) u).2 =
        some ⟨"PUT", "https://api.spotify.com/v1/me/player/play",
              some ("Bearer " ++ jsReplaceFirst a "Bearer " ""),
              some (Json.obj [("uris", Json.arr [Json.str s])])⟩) ∧
    (∀ (u : HttpOutcome) (s : String), s ≠ "" → jsIncludes s "track:" = false →
      (playHandler (some a) (some s) u).2 =
        some ⟨"PUT", "https://api.spotify.com/v1/me/player/play",
              some ("Bearer " ++ jsReplaceFirst a "Bearer " ""),
              some (Json.obj [("context_uri", Json.str s)])⟩) ∧
    (∀ u : HttpOutcome,
      (playHandler (some a) none u).2 =
        some ⟨"PUT", "https://api.spotify.com/v1/me/player/play",
              some ("Bearer " ++ jsReplaceFirst a "Bearer " ""),
              some (Json.obj [])⟩) ∧
    (∀ (uri : Option String) (b : Json),
      (playHandler (some a) uri (.response 404 b)).1 =
        .json 404 (errBody noDeviceMsg (some (404, b)))) ∧
    (∀ (uri : Option String) (s : ℕ) (b : Json),
      axiosFails (.response s b) = true → s ≠ 404 →
      (playHandler (some a) uri (.response s b)).1 =
        .json (statusOr500 (some (s, b))) (errBody "Playback failed" (some (s, b)))) ∧
    noDeviceMsg ≠ "Playback failed" := by
  refine ⟨?_, ?_, ?_, ?_, ?_, by decide⟩
  · intro u s htr
    rw [play_call_eq a (some s) u he, playBody_track s htr]
  · intro u s hs htr
    rw [play_call_eq a (some s) u he, playBody_context s hs htr]
  · intro u
    rw [play_call_eq a none u he]
    rfl
  · intro uri b
    unfold playHandler
    rw [tokenOf_some_eq, if_neg he]
    rfl
  · intro uri s b hf h4
    unfold playHandler
    rw [tokenOf_some_eq, if_neg he, axiosSettle_of_fails _ hf]
    simp [failInfo, respStatusIs, h4]

/-- Claim C6 (witness): the theorem applied at the spec's example inputs, a
track uri with a concrete token and upstream outcome. -/
theorem play_payload_check :
    (playHandler (some "Bearer T") (some "spotify:track:123")
        (.response 200 Json.null)).2 =
      some ⟨"PUT", "https://api.spotify.com/v1/me/player/play",
            some ("Bearer " ++ jsReplaceFirst "Bearer T" "Bearer " ""),
            some (Json.obj [("uris", Json.arr [Json.str "spotify:track:123"])])⟩ :=
  (play_payload_and_device_handling "Bearer T" (by decide)).1
    (.response 200 Json.null) "spotify:track:123" (by decide)

/-- Claim C7: a `/callback` request carrying a (nonempty) `error` query
parameter is redirected to the frontend with that error value and no
token-exchange call is made; a `/callback` request carrying neither an `error`
nor a `code` parameter is redirected with `error=no_code`, again with no
token-exchange call. -/
theorem callback_error_paths (frontend : String) (code : Option String)
    (ex : HttpOutcome) :
    (∀ e : String, e ≠ "" →
      callbackHandler frontend code (some e) ex =
        (.redirect (frontend ++ "/?error=" ++ e), false)) ∧
    callbackHandler frontend none none ex =
      (.redirect (frontend ++ "/?error=no_code"), false) := by
  constructor
  · intro e h
    unfold callbackHandler
    simp [strTruthy, h]
  · rfl

/-- Claim C7 (witness): the theorem applied at the spec's example
`error=access_denied` with concrete frontend, code and outcome. -/
theorem callback_error_paths_check :
    callbackHandler "http://localhost:3000" none (some "access_denied")
        (.response 200 Json.null) =
      (.redirect ("http://localhost:3000" ++ "/?error=" ++ "access_denied"), false) :=
  (callback_error_paths "http://localhost:3000" none (.response 200 Json.null)).1
    "access_denied" (by decide)

theorem callbackSuccessParams_keys (data : Json) :
    (callbackSuccessParams data).map Prod.fst =
      if jsTruthy (jsonLookup data "refresh_token") then ["access_token", "refresh_token"]
      else ["access_token"] := by
  unfold callbackSuccessParams
  by_cases hr : jsTruthy (jsonLookup data "refresh_token") = true
  · simp [hr]
  · simp [Bool.not_eq_true] at hr
    simp [hr]

theorem refresh_key_needs_refresh_value (data : Json) :
    "refresh_token" ∈ (callbackSuccessParams data).map Prod.fst →
      jsonLookup data "refresh_token" ≠ none := by
  intro hmem hn
  rw [callbackSuccessParams_keys, hn] at hmem
  revert hmem
  decide

theorem expires_in_not_forwarded (data : Json) (v : String) :
    ("expires_in", v) ∉ callbackSuccessParams data := by
  intro hmem
  have h1 : ("expires_in" : String) ∈ (callbackSuccessParams data).map Prod.fst :=
    List.mem_map_of_mem Prod.fst hmem
  rw [callbackSuccessParams_keys] at h1
  by_cases hr : jsTruthy (jsonLookup data "refresh_token") = true
  · rw [if_pos hr] at h1
    exact absurd h1 (by decide)
  · simp [Bool.not_eq_true] at hr
    rw [hr, if_neg (by decide)] at h1
    exact absurd h1 (by decide)

/-- Claim C2: a `/callback` request carrying a code and no error parameter
terminates in exactly one redirect.  On a successful token exchange — a
resolved call whose parsed body is not JSON null, so that destructuring the
response data succeeds — the redirect query is the serialisation of
`callbackSuccessParams`, whose keys are `access_token` always,
`refresh_token` exactly when the upstream field is truthy (so only if present
in the upstream response), and never `expires_in`.  On any exchange failure
(transport error or non-2xx) the redirect is `?error=auth_failed`; a resolved
null body, whose destructuring throws inside the try block, is caught and
likewise redirected to `?error=auth_failed` rather than surfaced; and on
every exchange outcome the response is a redirect, never a JSON body. -/
theorem callback_token_exchange (frontend : String) (code error : Option String)
    (ex : HttpOutcome) (hcode : strTruthy code = true) (herr : error = none) :
    (∀ data, axiosSettle ex = .ok data → data ≠ Json.null →
      callbackHandler frontend code error ex =
        (.redirect (frontend ++ "/?" ++ formSerialize (callbackSuccessParams data)), true) ∧
      (callbackSuccessParams data).map Prod.fst =
        (if jsTruthy (jsonLookup data "refresh_token") then ["access_token", "refresh_token"]
         else ["access_token"]) ∧
      ("refresh_token" ∈ (callbackSuccessParams data).map Prod.fst →
        jsonLookup data "refresh_token" ≠ none) ∧
      (∀ v, ("expires_in", v) ∉ callbackSuccessParams data)) ∧
    (axiosSettle ex = .ok Json.null →
      callbackHandler frontend code error ex =
        (.redirect (frontend ++ "/?error=auth_failed"), true)) ∧
    (axiosFails ex = true →
      callbackHandler frontend code error ex =
        (.redirect (frontend ++ "/?error=auth_failed"), true)) ∧
    (∃ url, (callbackHandler frontend code error ex).1 = .redirect url) := by
  subst herr
  have h2 : ¬((!(strTruthy code)) = true) := by rw [hcode]; decide
  refine ⟨?_, ?_, ?_, ?_⟩
  · intro data hok hnn
    refine ⟨?_, callbackSuccessParams_keys data,
      refresh_key_needs_refresh_value data, fun v => expires_in_not_forwarded data v⟩
    unfold callbackHandler
    rw [if_neg (by decide), if_neg h2, hok]
    cases data <;> first | exact absurd rfl hnn | rfl
  · intro hok
    unfold callbackHandler
    rw [if_neg (by decide), if_neg h2, hok]
  · intro hf
    unfold callbackHandler
    rw [if_neg (by decide), if_neg h2, axiosSettle_of_fails _ hf]
  · unfold callbackHandler
    rw [if_neg (by decide), if_neg h2]
    cases hax : axiosSettle ex with
    | ok d => cases d <;> exact ⟨_, rfl⟩
    | error e => exact ⟨_, rfl⟩

/-- Claim C2 (witness): the theorem applied at a concrete exchange returning
both tokens. -/
theorem callback_token_exchange_check :
    callbackHandler "http://localhost:3000" (some "abc123") none
        (.response 200 (Json.obj
          [("access_token", Json.str "T"), ("refresh_token", Json.str "R"),
           ("expires_in", Json.num 3600)])) =
      (.redirect ("http://localhost:3000" ++ "/?" ++
        formSerialize (callbackSuccessParams (Json.obj
          [("access_token", Json.str "T"), ("refresh_token", Json.str "R"),
           ("expires_in", Json.num 3600)]))), true) :=
  ((callback_token_exchange "http://localhost:3000" (some "abc123") none
      (.response 200 (Json.obj
        [("access_token", Json.str "T"), ("refresh_token", Json.str "R"),
         ("expires_in", Json.num 3600)]))
      (by decide) rfl).1 _ rfl (fun h => Json.noConfusion h)).1

theorem statusOr500_of_404 (e : Option (ℕ × Json)) (h : respStatusIs e 404 = true) :
    statusOr500 e = 404 := by
  cases e with
  | none => exact Bool.noConfusion h
  | some p =>
    obtain ⟨s, b⟩ := p
    have hs : s = 404 := by simpa [respStatusIs] using h
    subst hs
    rfl

/-- Claim C8: every resource proxy handler whose single upstream call fails
responds with the upstream status code when the rejection carries a response
(and 500 on a transport failure, per `statusOr500`), with body `errBody`,
that is, the operation-specific `error` message together with the upstream
error body under `details` when the rejection carries one.  For `/api/play`
the operation-specific message is the no-active-device message on a 404 and
"Playback failed" otherwise. -/
theorem upstream_failure_mapping (a s : String) (uri : Option String)
    (v w : JPrim) (u : HttpOutcome)
    (he : jsReplaceFirst a "Bearer " "" ≠ "") (hq : s ≠ "")
    (hf : axiosFails u = true) :
    (playlistsHandler (some a) u).1 =
      .json (statusOr500 (failInfo u)) (errBody "Failed to fetch playlists" (failInfo u)) ∧
    (searchHandler (some a) (some s) u).1 =
      .json (statusOr500 (failInfo u)) (errBody "Search failed" (failInfo u)) ∧
    (playHandler (some a) uri u).1 =
      .json (statusOr500 (failInfo u))
        (errBody (if respStatusIs (failInfo u) 404 then noDeviceMsg else "Playback failed")
          (failInfo u)) ∧
    (pauseHandler (some a) u).1 =
      .json (statusOr500 (failInfo u)) (errBody "Pause failed" (failInfo u)) ∧
    (nextHandler (some a) u).1 =
      .json (statusOr500 (failInfo u)) (errBody "Next track failed" (failInfo u)) ∧
    (previousHandler (some a) u).1 =
      .json (statusOr500 (failInfo u)) (errBody "Previous track failed" (failInfo u)) ∧
    (currentHandler (some a) u).1 =
      .json (statusOr500 (failInfo u)) (errBody "Failed to get playback state" (failInfo u)) ∧
    (seekHandler (some a) (some v) u).1 =
      .json (statusOr500 (failInfo u)) (errBody "Seek failed" (failInfo u)) ∧
    (volumeHandler (some a) (some w) u).1 =
      .json (statusOr500 (failInfo u)) (errBody "Volume change failed" (failInfo u)) := by
  have haz := axiosSettle_of_fails u hf
  refine ⟨?_, ?_, ?_, ?_, ?_, ?_, ?_, ?_, ?_⟩
  · unfold playlistsHandler
    rw [tokenOf_some_eq, if_neg he, haz]
  · unfold searchHandler
    rw [tokenOf_some_eq, if_neg he]
    simp [strTruthy, hq, haz]
  · unfold playHandler
    rw [tokenOf_some_eq, if_neg he, haz]
    by_cases h4 : respStatusIs (failInfo u) 404 = true
    · simp [h4, statusOr500_of_404 (failInfo u) h4]
    · simp [h4]
  · unfold pauseHandler
    rw [tokenOf_some_eq, if_neg he, haz]
  · unfold nextHandler
    rw [tokenOf_some_eq, if_neg he, haz]
  · unfold previousHandler
    rw [tokenOf_some_eq, if_neg he, haz]
  · unfold currentHandler
    rw [tokenOf_some_eq, if_neg he, haz]
    simp [status_not_204_of_fails u hf]
  · unfold seekHandler
    rw [tokenOf_some_eq, if_neg he, haz]
  · unfold volumeHandler
    rw [tokenOf_some_eq, if_neg he, haz]

/-- Claim C8 (witness): the theorem applied at a concrete 503 failure with an
upstream error body. -/
theorem upstream_failure_mapping_check :
    (playlistsHandler (some "Bearer T") (.response 503 (Json.str "oops"))).1 =
      .json (statusOr500 (failInfo (.response 503 (Json.str "oops"))))
        (errBody "Failed to fetch playlists" (failInfo (.response 503 (Json.str "oops")))) :=
  (upstream_failure_mapping "Bearer T" "daft" none .null .null
    (.response 503 (Json.str "oops")) (by decide) (by decide) (by decide)).1

/-- Claim C9: `/api/search` with a bearer token responds 400 with a
descriptive error and no upstream call when `q` is absent or empty; otherwise
it issues exactly one upstream GET whose URL carries the
`encodeURIComponent`-encoded query, and on a resolved upstream call relays
the upstream JSON body unchanged. -/
theorem search_validation_and_relay (a : String) (u : HttpOutcome)
    (he : jsReplaceFirst a "Bearer " "" ≠ "") :
    searchHandler (some a) none u =
      (.json 400 (Json.obj [("error", Json.str "No search query provided")]), none) ∧
    searchHandler (some a) (some "") u =
      (.json 400 (Json.obj [("error", Json.str "No search query provided")]), none) ∧
    (∀ s : String, s ≠ "" →
      (searchHandler (some a) (some s) u).2 =
        some ⟨"GET",
              "https://api.spotify.com/v1/search?q=" ++ encodeURIComponent s ++
                "&type=track,album,artist&limit=20",
              some ("Bearer " ++ jsReplaceFirst a "Bearer " ""), none⟩ ∧
      (∀ data, axiosSettle u = .ok data →
        (searchHandler (some a) (some s) u).1 = .json 200 data)) := by
  refine ⟨search_no_query a none u he rfl, search_no_query a (some "") u he rfl,
    fun s hs => ⟨search_call_eq a s u he hs, fun data hok => ?_⟩⟩
  unfold searchHandler
  rw [tokenOf_some_eq, if_neg he]
  simp [strTruthy, hs, hok]

/-- Claim C9 (witness): the theorem applied at the spec's example query with
a concrete token and upstream body. -/
theorem search_validation_check :
    (searchHandler (some "Bearer T") (some "daft punk")
        (.response 200 (Json.obj [("tracks", Json.arr [])]))).2 =
      some ⟨"GET",
            "https://api.spotify.com/v1/search?q=" ++ encodeURIComponent "daft punk" ++
              "&type=track,album,artist&limit=20",
            some ("Bearer " ++ jsReplaceFirst "Bearer T" "Bearer " ""), none⟩ ∧
    (searchHandler (some "Bearer T") (some "daft punk")
        (.response 200 (Json.obj [("tracks", Json.arr [])]))).1 =
      .json 200 (Json.obj [("tracks", Json.arr [])]) := by
  obtain ⟨hcall, hrelay⟩ :=
    (search_validation_and_relay "Bearer T"
      (.response 200 (Json.obj [("tracks", Json.arr [])])) (by decide)).2.2
      "daft punk" (by decide)
  exact ⟨hcall, hrelay _ rfl⟩

/-- Claim C10: for `/api/seek` and `/api/volume` with a bearer token, the 400
validation rejection fires exactly when the required body field is absent or
explicitly undefined; every present value — including `null` and non-numeric
strings — passes validation and is sent upstream after `Math.floor`: `null`
is rendered as `0` in the upstream URL and any string whose ToNumber is NaN
is rendered as `NaN`. -/
theorem seek_volume_field_semantics (a : String) (u : HttpOutcome)
    (he : jsReplaceFirst a "Bearer " "" ≠ "") :
    seekHandler (some a) none u =
      (.json 400 (Json.obj [("error", Json.str "No position provided")]), none) ∧
    volumeHandler (some a) none u =
      (.json 400 (Json.obj [("error", Json.str "No volume provided")]), none) ∧
    (∀ v : JPrim,
      (seekHandler (some a) (some v) u).2 =
        some ⟨"PUT",
              "https://api.spotify.com/v1/me/player/seek?position_ms=" ++
                jnumToString (mathFloor (jsToNumber v)),
              some ("Bearer " ++ jsReplaceFirst a "Bearer " ""), some (Json.obj [])⟩ ∧
      (volumeHandler (some a) (some v) u).2 =
        some ⟨"PUT",
              "https://api.spotify.com/v1/me/player/volume?volume_percent=" ++
                jnumToString (mathFloor (jsToNumber v)),
              some ("Bearer " ++ jsReplaceFirst a "Bearer " ""), some (Json.obj [])⟩) ∧
    jnumToString (mathFloor (jsToNumber .null)) = "0" ∧
    (∀ s : String, strToNumber s = .nan →
      jnumToString (mathFloor (jsToNumber (.str s))) = "NaN") := by
  refine ⟨seek_no_position a u he, volume_no_volume a u he,
    fun v => ⟨seek_call_eq a v u he, volume_call_eq a v u he⟩, rfl, fun s hs => ?_⟩
  show jnumToString (mathFloor (strToNumber s)) = "NaN"
  rw [hs]
  rfl

/-- Claim C10 (witness): the theorem applied at the explicit-null and
non-numeric-string inputs with a concrete token and outcome. -/
theorem seek_volume_field_check :
    (seekHandler (some "Bearer T") (some .null) (.response 200 Json.null)).2 =
      some ⟨"PUT",
            "https://api.spotify.com/v1/me/player/seek?position_ms=" ++
              jnumToString (mathFloor (jsToNumber .null)),
            some ("Bearer " ++ jsReplaceFirst "Bearer T" "Bearer " ""),
            some (Json.obj [])⟩ ∧
    jnumToString (mathFloor (jsToNumber (.str "abc"))) = "NaN" :=
  ⟨((seek_volume_field_semantics "Bearer T" (.response 200 Json.null)
      (by decide)).2.2.1 .null).1,
   (seek_volume_field_semantics "Bearer T" (.response 200 Json.null)
      (by decide)).2.2.2.2 "abc" rfl⟩

end SpotifyProxy
